import Mathlib

/-!
Shallow embedding of the rate-limited Alpaca brokerage gateway of
`src/src/main.py` (class `AlpacaService`), together with theorems settling
the specification claims about it.

Conventions of the embedding:
* Python numbers (floats and numeric strings parsed with `float(...)`) are
  modelled as `Rat`; machine rounding is not at issue in any claim.
* A Python value that may be `None` is modelled as an `Option`.
* A method that may either return a value or let an exception escape to the
  caller is modelled with the `Outcome` type below.
* Mutable limiter state is threaded explicitly: each operation maps the
  pre-state to a result together with the post-state.
-/

set_option maxRecDepth 16000

namespace PyTrader

/-- State of one window counter owned by one application of the third-party
`ratelimit` decorator: the time of the last reset and the number of calls
counted since that reset. -/
structure LimState where
  lastReset : Rat
  numCalls : Nat
deriving DecidableEq, Repr

/-- Modelled from the spec: the third-party `ratelimit` library (its source is
not part of this repository) supplies the `limits(calls, period)` decorator
used at `src/src/main.py` lines 67-68, 97-98, 131-132, 179-180.  The library
keeps a fixed window per decorator application: it computes the remaining
period, resets the counter when the period has elapsed, increments the counter
for every attempt, and (with the default `raise_on_limit=True`, which
`src/src/main.py` lines 90-92 explicitly says is in use) raises
`RateLimitException` from the wrapper when the incremented count exceeds the
capacity.  Returns whether the call is admitted, together with the new
counter state. -/
def limAttempt (cap : Nat) (period : Rat) (now : Rat) (s : LimState) : Bool × LimState :=
  let s0 := if period - (now - s.lastReset) ≤ 0 then { lastReset := now, numCalls := 0 } else s
  let n := s0.numCalls + 1
  (decide (n ≤ cap), { s0 with numCalls := n })

/-- Constant `CALLS_PER_SECOND` of `src/src/main.py` line 29. -/
def CALLS_PER_SECOND : Nat := 10

/-- Constant `PERIOD_PER_SECOND` of `src/src/main.py` line 30. -/
def PERIOD_PER_SECOND : Rat := 1

/-- Constant `CALLS_PER_MINUTE` of `src/src/main.py` line 32. -/
def CALLS_PER_MINUTE : Nat := 200

/-- Constant `PERIOD_PER_MINUTE` of `src/src/main.py` line 33. -/
def PERIOD_PER_MINUTE : Rat := 60

/-- The pair of decorator states wrapping one gateway method: the fast
(10 per 1s) window listed first at line 67/97/131/179 and the slow
(200 per 60s) window listed second at line 68/98/132/180.  Python applies the
decorator nearest the `def` first, so a call passes through the fast wrapper
first, as the comment at `src/src/main.py` line 28 states. -/
structure MethodLimiter where
  fast : LimState
  slow : LimState
deriving DecidableEq, Repr

/-- Admission through the two decorators wrapping one method: the fast window
is consulted (and charged) first; the slow window is consulted only if the
fast window admits.  Returns whether both admitted, with the new pair of
counter states. -/
def methodAdmit (now : Rat) (lim : MethodLimiter) : Bool × MethodLimiter :=
  let fr := limAttempt CALLS_PER_SECOND PERIOD_PER_SECOND now lim.fast
  if fr.1 = false then
    (false, { lim with fast := fr.2 })
  else
    let sr := limAttempt CALLS_PER_MINUTE PERIOD_PER_MINUTE now lim.slow
    (sr.1, { fast := fr.2, slow := sr.2 })

/-- One fresh decorator state, as created when `src/src/main.py` is imported
(class definition time); we place the creation instant at time 0. -/
def freshLim : MethodLimiter := ⟨⟨0, 0⟩, ⟨0, 0⟩⟩

/-- Connection state of an `AlpacaService` instance: whether `self.api` is a
live client (line 58) and the stored `self.error_message` (lines 41, 49, 64).
Both are written only by `__init__`. -/
structure ConnState where
  apiReady : Bool
  errorMessage : Option String
deriving DecidableEq, Repr

/-- Message assigned at `src/src/main.py` line 49 when the API keys are
absent. -/
def noKeysMsg : String :=
  "API keys not found. Please set APCA_API_KEY_ID and APCA_API_SECRET_KEY in your .env file."

/-- The `AlpacaService.__init__` logic (`src/src/main.py` lines 39-65):
missing keys set the stored message and leave the client unset; otherwise one
probe `self.api.get_account()` is attempted, and an exception from it (its
`str` form is the `probe` error payload) unsets the client and stores the
connection-failure message. -/
def serviceInit (keysPresent : Bool) (baseUrl : String) (probe : Except String Unit) : ConnState :=
  if keysPresent = false then
    { apiReady := false, errorMessage := some noKeysMsg }
  else
    match probe with
    | Except.ok _ => { apiReady := true, errorMessage := none }
    | Except.error e =>
        { apiReady := false
          errorMessage := some ("Failed to connect to Alpaca API at " ++ baseUrl ++ ": " ++ e) }

/-- Python truthiness of `self.error_message` (a `None`-or-string field):
`None` and the empty string are falsy. -/
def errMsgTruthy (conn : ConnState) : Bool :=
  match conn.errorMessage with
  | some m => !(m == "")
  | none => false

/-- Outcome of one remote SDK call made inside a `try` block: a successful
payload, or one of the exception shapes the `except` clauses of
`src/src/main.py` distinguish.  `apiError msg code raw` is
`tradeapi.rest.APIError` with `.message`, `.code` and `str(...)` form;
`rateLimitExc raw` is a `RateLimitException` raised inside the `try` body;
`otherExc raw` is any other exception with `str` form `raw`. -/
inductive RemoteOutcome (α : Type) where
  | ok : α → RemoteOutcome α
  | rateLimitExc : String → RemoteOutcome α
  | apiError : String → String → String → RemoteOutcome α
  | otherExc : String → RemoteOutcome α
deriving DecidableEq, Repr

/-- The dictionary shape every gateway method body returns: a success payload,
or an error dictionary with key `error` and (only where `submit_trade_order`
adds it) an optional `raw_error`. -/
inductive GResult (α : Type) where
  | ok : α → GResult α
  | err : String → Option String → GResult α
deriving DecidableEq, Repr

/-- What the caller of a decorated gateway method observes: either the method
body returned a dictionary, or an exception (the decorator-raised
`RateLimitException`, carrying the library message) escaped to the caller. -/
inductive Outcome (α : Type) where
  | raised : String → Outcome α
  | returned : GResult α → Outcome α
deriving DecidableEq, Repr

/-- Composition of the two `limits` decorators with a method body: the
decorators run before the body, so a rejection raises `RateLimitException`
(library message `too many calls`) to the caller without the body running at
all.  The body is supplied as its result dictionary paired with the flag
recording whether the body reached its remote call. -/
def rateLimitedCall {α : Type} (now : Rat) (lim : MethodLimiter) (body : GResult α × Bool) :
    (Outcome α × Bool) × MethodLimiter :=
  let r := methodAdmit now lim
  if r.1 then ((Outcome.returned body.1, body.2), r.2)
  else ((Outcome.raised "too many calls", false), r.2)

/-- Remote account entity as consumed at `src/src/main.py` lines 78-87: the
numeric fields arrive as numeric strings that the code parses with
`float(...)`; we model them directly as rationals. -/
structure AccountRecord where
  accountNumber : String
  status : String
  equity : Rat
  buyingPower : Rat
  cash : Rat
  portfolioValue : Rat
  daytradeCount : Nat
  currency : String
deriving DecidableEq, Repr

/-- Canonical account dictionary built at lines 78-87; the four currency
amounts are the formatted strings produced there. -/
structure AccountInfo where
  accountNumber : String
  status : String
  equity : String
  buyingPower : String
  cash : String
  portfolioValue : String
  daytradeCount : Nat
  currency : String
deriving DecidableEq, Repr

/-- Regrouping of a reversed digit list with a comma after every third digit,
for the thousands separator of the `,` format option. -/
def groupRev : List Char → List Char
  | a :: b :: c :: d :: rest => a :: b :: c :: ',' :: groupRev (d :: rest)
  | l => l

/-- Decimal rendering of a natural number with thousands separators. -/
def withCommas (n : Nat) : String :=
  String.mk (groupRev (toString n).toList.reverse).reverse

/-- Two-digit rendering of a number below 100. -/
def pad2 (n : Nat) : String :=
  if n < 10 then "0" ++ toString n else toString n

/-- Model of the Python format `f"${v:,.2f}"` used at lines 81-84: a literal
dollar sign, then the value rendered with sign, thousands separators and two
decimals.  Python rounds the underlying binary float half-to-even; no claim
depends on the rounding mode, so the model rounds the exact rational to the
nearest cent. -/
def formatUSD (v : Rat) : String :=
  let c : Int := round (v * 100)
  let a : Nat := c.natAbs
  "$" ++ (if c < 0 then "-" else "") ++ withCommas (a / 100) ++ "." ++ pad2 (a % 100)

/-- Normalization of the account entity into the returned dictionary,
`src/src/main.py` lines 78-87. -/
def normalizeAccount (a : AccountRecord) : AccountInfo :=
  { accountNumber := a.accountNumber
    status := a.status
    equity := formatUSD a.equity
    buyingPower := formatUSD a.buyingPower
    cash := formatUSD a.cash
    portfolioValue := formatUSD a.portfolioValue
    daytradeCount := a.daytradeCount
    currency := a.currency }

/-- Body of `get_account_info` (`src/src/main.py` lines 69-95), after the two
decorators have admitted the call.  The second component records whether the
remote `self.api.get_account()` call was reached. -/
def accountBody (conn : ConnState) (remote : RemoteOutcome AccountRecord) :
    GResult AccountInfo × Bool :=
  if errMsgTruthy conn && !conn.apiReady then
    (GResult.err (conn.errorMessage.getD "") none, false)
  else if !conn.apiReady then
    (GResult.err "API not initialized (unknown reason)." none, false)
  else
    match remote with
    | RemoteOutcome.ok a => (GResult.ok (normalizeAccount a), true)
    | RemoteOutcome.rateLimitExc raw =>
        (GResult.err ("Rate limit exceeded for get_account_info: " ++ raw
          ++ ". Please try again shortly.") none, true)
    | RemoteOutcome.apiError _ _ raw =>
        (GResult.err ("Failed to fetch account info: " ++ raw) none, true)
    | RemoteOutcome.otherExc raw =>
        (GResult.err ("Failed to fetch account info: " ++ raw) none, true)

/-- Remote quote entity as consumed at `src/src/main.py` lines 117-124: ask
price `ap`, bid price `bp`, ask size `as_` (modelled as `asz`), bid size `bs`,
and an optional timestamp `t` (its `isoformat()` rendering). -/
structure RemoteQuote where
  ap : Rat
  bp : Rat
  asz : Rat
  bs : Rat
  t : Option String
deriving DecidableEq, Repr

/-- Processed quote dictionary built at lines 118-124. -/
structure Quote where
  askPrice : Rat
  bidPrice : Rat
  askSize : Rat
  bidSize : Rat
  timestamp : Option String
deriving DecidableEq, Repr

/-- Per-symbol quote normalization of lines 118-124; a `datetime` is always
truthy, so `quote.t.isoformat() if quote.t else None` keeps exactly the
present timestamps. -/
def normalizeQuote (q : RemoteQuote) : Quote :=
  { askPrice := q.ap
    bidPrice := q.bp
    askSize := q.asz
    bidSize := q.bs
    timestamp := match q.t with | some ts => some ts | none => none }

/-- Loop of lines 116-124: iterate over the symbol/quote pairs actually
present in the remote response (a Python dict, modelled as an association
list in iteration order) and build the processed dictionary. -/
def processQuotes (qd : List (String × RemoteQuote)) : List (String × Quote) :=
  qd.map (fun p => (p.1, normalizeQuote p.2))

/-- Body of `get_quotes` (`src/src/main.py` lines 99-129): connection checks,
the empty-symbols shortcut of lines 105-106, then the remote fetch and
normalization. -/
def quotesBody (conn : ConnState) (symbols : List String)
    (remote : RemoteOutcome (List (String × RemoteQuote))) :
    GResult (List (String × Quote)) × Bool :=
  if errMsgTruthy conn && !conn.apiReady then
    (GResult.err (conn.errorMessage.getD "") none, false)
  else if !conn.apiReady then
    (GResult.err "API not initialized." none, false)
  else if symbols.isEmpty then
    (GResult.ok [], false)
  else
    match remote with
    | RemoteOutcome.ok qd => (GResult.ok (processQuotes qd), true)
    | RemoteOutcome.rateLimitExc raw =>
        (GResult.err ("Rate limit exceeded for get_quotes: " ++ raw
          ++ ". Please try again shortly.") none, true)
    | RemoteOutcome.apiError _ _ raw =>
        (GResult.err ("Failed to fetch quotes: " ++ raw) none, true)
    | RemoteOutcome.otherExc raw =>
        (GResult.err ("Failed to fetch quotes: " ++ raw) none, true)

/-- Python truthiness of an optional numeric value: `None` and zero are
falsy. -/
def ratTruthy : Option Rat → Bool
  | none => false
  | some x => !(x == 0)

/-- Remote position entity as consumed at `src/src/main.py` lines 156-171:
numeric strings are parsed with `float(...)` and modelled as rationals;
`current_price` may be absent. -/
structure RemotePosition where
  symbol : String
  qty : Rat
  avgEntryPrice : Rat
  currentPrice : Option Rat
  marketValue : Rat
  unrealizedPl : Rat
  unrealizedPlpc : Rat
  assetClass : String
  exchange : String
deriving DecidableEq, Repr

/-- Enriched position dictionary built at lines 160-172. -/
structure Position where
  symbol : String
  qty : Rat
  avgEntryPrice : Rat
  currentPrice : Option Rat
  marketValue : Rat
  unrealizedPl : Rat
  unrealizedPlpc : Rat
  assetClass : String
  exchange : String
deriving DecidableEq, Repr

/-- Per-position enrichment of lines 156-172: every field comes from the one
remote position record; `float(current_price) if current_price else None`
maps a falsy embedded price to `None`; the percentage is the remote fraction
times 100. -/
def enrichPosition (p : RemotePosition) : Position :=
  { symbol := p.symbol
    qty := p.qty
    avgEntryPrice := p.avgEntryPrice
    currentPrice := if ratTruthy p.currentPrice then some (p.currentPrice.getD 0) else none
    marketValue := p.marketValue
    unrealizedPl := p.unrealizedPl
    unrealizedPlpc := p.unrealizedPlpc * 100
    assetClass := p.assetClass
    exchange := p.exchange }

/-- Body of `list_positions` (`src/src/main.py` lines 133-177): connection
checks, remote fetch, the empty shortcut of lines 142-143, then the
enrichment loop.  No per-symbol quote fetch occurs: the only remote
interaction is the single `self.api.list_positions()` call whose outcome is
the `remote` argument (the quote fetch at line 147 is commented out). -/
def positionsBody (conn : ConnState) (remote : RemoteOutcome (List RemotePosition)) :
    GResult (List Position) × Bool :=
  if errMsgTruthy conn && !conn.apiReady then
    (GResult.err (conn.errorMessage.getD "") none, false)
  else if !conn.apiReady then
    (GResult.err "API not initialized." none, false)
  else
    match remote with
    | RemoteOutcome.ok ps =>
        if ps.isEmpty then (GResult.ok [], true)
        else (GResult.ok (ps.map enrichPosition), true)
    | RemoteOutcome.rateLimitExc raw =>
        (GResult.err ("Rate limit exceeded for list_positions: " ++ raw
          ++ ". Please try again shortly.") none, true)
    | RemoteOutcome.apiError _ _ raw =>
        (GResult.err ("Failed to fetch positions: " ++ raw) none, true)
    | RemoteOutcome.otherExc raw =>
        (GResult.err ("Failed to fetch positions: " ++ raw) none, true)

/-- Arguments of `submit_trade_order` (`src/src/main.py` lines 181-190). -/
structure OrderRequest where
  symbol : String
  qty : Rat
  side : String
  orderType : String
  timeInForce : String
  limitPrice : Option Rat
  stopPrice : Option Rat
  clientOrderId : Option String
deriving DecidableEq, Repr

/-- The seven validation messages of lines 199-215, in rule order. -/
def validationMsgs : List String :=
  [ "Invalid symbol."
  , "Invalid quantity."
  , "Invalid side. Must be \x27buy\x27 or \x27sell\x27."
  , "Invalid order type."
  , "Invalid time in force."
  , "Limit price is required for limit and stop_limit orders."
  , "Stop price is required for stop and stop_limit orders." ]

/-- Input validation of `submit_trade_order` (`src/src/main.py` lines
198-215), run in source order with the first failing rule returning its
message.  `not symbol or not isinstance(symbol, str)` reduces to the
empty-string test (the argument is typed `str`); the doubly guarded
trailing-stop conditional at lines 212-215 exempts `trailing_stop` from the
stop-price rule. -/
def validateOrder (r : OrderRequest) : Option String :=
  if r.symbol == "" then some (validationMsgs.get! 0)
  else if r.qty ≤ 0 then some (validationMsgs.get! 1)
  else if !(r.side == "buy" || r.side == "sell") then some (validationMsgs.get! 2)
  else if !(["market", "limit", "stop", "stop_limit", "trailing_stop"].contains r.orderType) then
    some (validationMsgs.get! 3)
  else if !(["day", "gtc", "opg", "cls", "ioc", "fok"].contains r.timeInForce) then
    some (validationMsgs.get! 4)
  else if (r.orderType == "limit" || r.orderType == "stop_limit") && r.limitPrice.isNone then
    some (validationMsgs.get! 5)
  else if (["stop", "stop_limit", "trailing_stop"].contains r.orderType)
      && r.stopPrice.isNone && !(r.orderType == "trailing_stop") then
    if !(r.orderType == "trailing_stop") then some (validationMsgs.get! 6) else none
  else none

/-- Keyword arguments assembled for `self.api.submit_order` at lines 219-231:
the symbol is upper-cased, the optional prices are attached only when
present, and a falsy (absent or empty) client order id is dropped. -/
structure OrderParams where
  symbol : String
  qty : Rat
  side : String
  orderType : String
  timeInForce : String
  limitPrice : Option Rat
  stopPrice : Option Rat
  clientOrderId : Option String
deriving DecidableEq, Repr

/-- Assembly of the outbound parameters, lines 219-231. -/
def orderParams (r : OrderRequest) : OrderParams :=
  { symbol := r.symbol.toUpper
    qty := r.qty
    side := r.side
    orderType := r.orderType
    timeInForce := r.timeInForce
    limitPrice := r.limitPrice
    stopPrice := r.stopPrice
    clientOrderId :=
      match r.clientOrderId with
      | some c => if c == "" then none else some c
      | none => none }

/-- Remote order entity as consumed at lines 239-251; `created_at` is the
optional timestamp (its `isoformat()` rendering), and the two prices may be
absent. -/
structure RemoteOrder where
  id : String
  clientOrderId : String
  symbol : String
  qty : Rat
  side : String
  orderType : String
  timeInForce : String
  status : String
  createdAt : Option String
  limitPrice : Option Rat
  stopPrice : Option Rat
deriving DecidableEq, Repr

/-- Order result dictionary built at lines 239-251. -/
structure OrderResult where
  id : String
  clientOrderId : String
  symbol : String
  qty : Rat
  side : String
  orderType : String
  timeInForce : String
  status : String
  createdAt : Option String
  limitPrice : Option Rat
  stopPrice : Option Rat
deriving DecidableEq, Repr

/-- Normalization of the submitted order, lines 239-251:
`float(order.limit_price) if order.limit_price else None` (and likewise for
the stop price) maps a falsy remote value to `None`; a missing creation
timestamp stays `None`. -/
def normalizeOrder (o : RemoteOrder) : OrderResult :=
  { id := o.id
    clientOrderId := o.clientOrderId
    symbol := o.symbol
    qty := o.qty
    side := o.side
    orderType := o.orderType
    timeInForce := o.timeInForce
    status := o.status
    createdAt := match o.createdAt with | some t => some t | none => none
    limitPrice := if ratTruthy o.limitPrice then some (o.limitPrice.getD 0) else none
    stopPrice := if ratTruthy o.stopPrice then some (o.stopPrice.getD 0) else none }

/-- Body of `submit_trade_order` (`src/src/main.py` lines 181-258):
connection checks, validation (returning the first failing message with no
remote call), then the remote submission; `tradeapi.rest.APIError` is caught
specifically (line 254-256) with the raw text preserved, any other exception
generically (lines 257-258), both with a `raw_error` field. -/
def submitBody (conn : ConnState) (req : OrderRequest) (remote : RemoteOutcome RemoteOrder) :
    GResult OrderResult × Bool :=
  if errMsgTruthy conn && !conn.apiReady then
    (GResult.err (conn.errorMessage.getD "") none, false)
  else if !conn.apiReady then
    (GResult.err "API not initialized." none, false)
  else
    match validateOrder req with
    | some m => (GResult.err m none, false)
    | none =>
      match remote with
      | RemoteOutcome.ok o => (GResult.ok (normalizeOrder o), true)
      | RemoteOutcome.rateLimitExc raw =>
          (GResult.err ("Rate limit exceeded for submit_trade_order: " ++ raw
            ++ ". Please try again shortly.") none, true)
      | RemoteOutcome.apiError msg code raw =>
          (GResult.err ("Alpaca API error: " ++ msg ++ " (Code: " ++ code ++ ")") (some raw), true)
      | RemoteOutcome.otherExc raw =>
          (GResult.err ("Failed to submit order: " ++ raw) (some raw), true)

/-- The eight decorator states owned by the class `AlpacaService`: one
fast/slow pair per decorated method.  Each `@limits(...)` application at
lines 67-68, 97-98, 131-132 and 179-180 constructs its own
`RateLimitDecorator` instance, so the four methods hold four disjoint pairs
of counters. -/
structure ServiceLimiters where
  accountL : MethodLimiter
  quotesL : MethodLimiter
  positionsL : MethodLimiter
  orderL : MethodLimiter
deriving DecidableEq, Repr

/-- All eight counters fresh, as at class-definition time (time 0). -/
def freshService : ServiceLimiters :=
  ⟨freshLim, freshLim, freshLim, freshLim⟩

/-- Connection state of a successfully constructed service. -/
def connReady : ConnState := ⟨true, none⟩

/-- The four decorated gateway methods. -/
inductive OpName where
  | acct | quote | pos | order
deriving DecidableEq, Repr

/-- Projection of the limiter pair belonging to one method. -/
def limOf (sv : ServiceLimiters) : OpName → MethodLimiter
  | OpName.acct => sv.accountL
  | OpName.quote => sv.quotesL
  | OpName.pos => sv.positionsL
  | OpName.order => sv.orderL

/-- Admission of one call to one method: only that method decorator pair is
consulted and updated. -/
def admitOp (now : Rat) (op : OpName) (sv : ServiceLimiters) : Bool × ServiceLimiters :=
  match op with
  | OpName.acct =>
      let r := methodAdmit now sv.accountL
      (r.1, { sv with accountL := r.2 })
  | OpName.quote =>
      let r := methodAdmit now sv.quotesL
      (r.1, { sv with quotesL := r.2 })
  | OpName.pos =>
      let r := methodAdmit now sv.positionsL
      (r.1, { sv with positionsL := r.2 })
  | OpName.order =>
      let r := methodAdmit now sv.orderL
      (r.1, { sv with orderL := r.2 })

/-- Run of an interleaved sequence of timed calls to the four methods,
recording for each call whether the decorators admitted it. -/
def runOps (sv : ServiceLimiters) : List (OpName × Rat) → List Bool
  | [] => []
  | c :: rest =>
      let r := admitOp c.2 c.1 sv
      r.1 :: runOps r.2 rest

/-- Run of a sequence of timed attempts through one single window counter. -/
def runWin (cap : Nat) (period : Rat) (s : LimState) : List Rat → List Bool
  | [] => []
  | t :: ts =>
      let r := limAttempt cap period t s
      r.1 :: runWin cap period r.2 ts

/-- Run of a sequence of timed calls through one method decorator pair,
recording for each call whether it was admitted. -/
def runMeth (lim : MethodLimiter) : List Rat → List Bool
  | [] => []
  | t :: ts =>
      let r := methodAdmit t lim
      r.1 :: runMeth r.2 ts

/-- Full call to `get_account_info` through its decorators: outcome, the flag
recording whether the remote fetch happened, and the service post-state. -/
def callGetAccountInfo (now : Rat) (sv : ServiceLimiters) (conn : ConnState)
    (remote : RemoteOutcome AccountRecord) :
    (Outcome AccountInfo × Bool) × ServiceLimiters :=
  let r := rateLimitedCall now sv.accountL (accountBody conn remote)
  (r.1, { sv with accountL := r.2 })

/-- Full call to `get_quotes` through its decorators. -/
def callGetQuotes (now : Rat) (sv : ServiceLimiters) (conn : ConnState)
    (symbols : List String) (remote : RemoteOutcome (List (String × RemoteQuote))) :
    (Outcome (List (String × Quote)) × Bool) × ServiceLimiters :=
  let r := rateLimitedCall now sv.quotesL (quotesBody conn symbols remote)
  (r.1, { sv with quotesL := r.2 })

/-- Full call to `list_positions` through its decorators. -/
def callListPositions (now : Rat) (sv : ServiceLimiters) (conn : ConnState)
    (remote : RemoteOutcome (List RemotePosition)) :
    (Outcome (List Position) × Bool) × ServiceLimiters :=
  let r := rateLimitedCall now sv.positionsL (positionsBody conn remote)
  (r.1, { sv with positionsL := r.2 })

/-- Full call to `submit_trade_order` through its decorators. -/
def callSubmitTradeOrder (now : Rat) (sv : ServiceLimiters) (conn : ConnState)
    (req : OrderRequest) (remote : RemoteOutcome RemoteOrder) :
    (Outcome OrderResult × Bool) × ServiceLimiters :=
  let r := rateLimitedCall now sv.orderL (submitBody conn req remote)
  (r.1, { sv with orderL := r.2 })

/-- Sample remote account record used by the concrete witnesses. -/
def sampleAccount : AccountRecord :=
  { accountNumber := "123456789"
    status := "ACTIVE"
    equity := 100000
    buyingPower := 200000
    cash := 50000
    portfolioValue := 100000
    daytradeCount := 0
    currency := "USD" }

/-- Service limiter state after `n` consecutive `get_account_info` calls, all
issued at time 0 against a ready connection. -/
def acctCalls : Nat → ServiceLimiters
  | 0 => freshService
  | n + 1 =>
      (callGetAccountInfo 0 (acctCalls n) connReady (RemoteOutcome.ok sampleAccount)).2

/-! Helper lemmas. -/

/-- Helper: a window attempt inside its current fixed window (the period has
not elapsed) keeps the reset instant and increments the counter, admitting
the call exactly when the incremented count is within capacity. -/
theorem limAttempt_no_reset (cap : Nat) (period now : Rat) (s : LimState)
    (h : 0 < period - (now - s.lastReset)) :
    limAttempt cap period now s
      = (decide (s.numCalls + 1 ≤ cap), { s with numCalls := s.numCalls + 1 }) := by
  simp [limAttempt, not_le.mpr h]

/-- Helper: within one fixed window of the fast counter of a method decorator
pair, the admitted calls together with the calls already counted never exceed
the fast capacity (or the counter stays where it was if already above). -/
theorem runMeth_fast_bound (ts : List Rat) (lim : MethodLimiter)
    (h : ∀ t ∈ ts, 0 < PERIOD_PER_SECOND - (t - lim.fast.lastReset)) :
    (runMeth lim ts).count true + lim.fast.numCalls
      ≤ max CALLS_PER_SECOND lim.fast.numCalls := by
  induction ts generalizing lim with
  | nil => simp [runMeth]
  | cons t ts ih =>
    have ht : 0 < PERIOD_PER_SECOND - (t - lim.fast.lastReset) := h t (by simp)
    by_cases hc : lim.fast.numCalls + 1 ≤ CALLS_PER_SECOND
    · have hrest := ih ⟨{ lim.fast with numCalls := lim.fast.numCalls + 1 },
        (limAttempt CALLS_PER_MINUTE PERIOD_PER_MINUTE t lim.slow).2⟩
        (by intro u hu; exact h u (by simp [hu]))
      rcases hb : (limAttempt CALLS_PER_MINUTE PERIOD_PER_MINUTE t lim.slow).1 with _ | _ <;>
        simp only [runMeth, methodAdmit, limAttempt_no_reset _ _ _ _ ht,
          decide_eq_true hc, hb, List.count_cons] at hrest ⊢ <;>
        simp at hrest ⊢ <;> omega
    · have hrest := ih ⟨{ lim.fast with numCalls := lim.fast.numCalls + 1 }, lim.slow⟩
        (by intro u hu; exact h u (by simp [hu]))
      simp only [runMeth, methodAdmit, limAttempt_no_reset _ _ _ _ ht,
        decide_eq_false hc, List.count_cons] at hrest ⊢
      simp at hrest ⊢
      omega

/-- Helper: within one fixed window of the slow counter of a method decorator
pair, the admitted calls together with the calls already counted never exceed
the slow capacity (or the counter stays where it was if already above). -/
theorem runMeth_slow_bound (ts : List Rat) (lim : MethodLimiter)
    (h : ∀ t ∈ ts, 0 < PERIOD_PER_MINUTE - (t - lim.slow.lastReset)) :
    (runMeth lim ts).count true + lim.slow.numCalls
      ≤ max CALLS_PER_MINUTE lim.slow.numCalls := by
  induction ts generalizing lim with
  | nil => simp [runMeth]
  | cons t ts ih =>
    have ht : 0 < PERIOD_PER_MINUTE - (t - lim.slow.lastReset) := h t (by simp)
    rcases hf : (limAttempt CALLS_PER_SECOND PERIOD_PER_SECOND t lim.fast).1 with _ | _
    · have hrest := ih ⟨(limAttempt CALLS_PER_SECOND PERIOD_PER_SECOND t lim.fast).2, lim.slow⟩
        (by intro u hu; exact h u (by simp [hu]))
      simp only [runMeth, methodAdmit, hf] at hrest ⊢
      simp [List.count_cons] at hrest ⊢
      omega
    · have hrest := ih ⟨(limAttempt CALLS_PER_SECOND PERIOD_PER_SECOND t lim.fast).2,
        { lim.slow with numCalls := lim.slow.numCalls + 1 }⟩
        (by intro u hu; exact h u (by simp [hu]))
      simp only [runMeth, methodAdmit, hf, limAttempt_no_reset _ _ _ _ ht] at hrest ⊢
      by_cases hc : lim.slow.numCalls + 1 ≤ CALLS_PER_MINUTE <;>
        simp [hc, List.count_cons] at hrest ⊢ <;> omega

/-- Helper: a `get_account_info` call always advances the account decorator
pair by one admission step, whatever the connection state and the remote
outcome. -/
theorem callGetAccountInfo_state (now : Rat) (sv : ServiceLimiters) (conn : ConnState)
    (remote : RemoteOutcome AccountRecord) :
    (callGetAccountInfo now sv conn remote).2
      = { sv with accountL := (methodAdmit now sv.accountL).2 } := by
  cases h : (methodAdmit now sv.accountL).1 <;>
    simp [callGetAccountInfo, rateLimitedCall, h]

/-- Helper: admitting a call of one method updates only that method decorator
pair. -/
theorem admitOp_frame (now : Rat) (op op2 : OpName) (sv : ServiceLimiters)
    (hne : op ≠ op2) : limOf (admitOp now op sv).2 op2 = limOf sv op2 := by
  cases op <;> cases op2 <;> first | exact absurd rfl hne | rfl

/-! Claim theorems. -/

/-- C1, counterexample: the four gateway methods do not draw from one shared
pair of windows.  From fresh counters, ten `get_account_info` calls and ten
`get_quotes` calls all issued at the same instant (time 0, hence all inside
the trailing 1-second window at that instant) are all twenty admitted,
exceeding the claimed shared fast capacity of 10. -/
theorem shared_rate_windows_counterexample :
    (runOps freshService (List.replicate 10 (OpName.acct, (0 : Rat))
        ++ List.replicate 10 (OpName.quote, (0 : Rat)))).count true = 20 ∧
    ¬(20 ≤ 10) := by
  constructor
  · norm_num [runOps, admitOp, methodAdmit, limAttempt, freshService, freshLim,
      CALLS_PER_SECOND, PERIOD_PER_SECOND, CALLS_PER_MINUTE, PERIOD_PER_MINUTE,
      List.replicate, List.count]
  · decide

/-- C1, amended: each of the four gateway operations owns its own independent
pair of fixed windows (capacity 10 per 1 second and 200 per 60 seconds).  A
call of one operation never touches another operation's counters, and within
one fixed window of an operation (no reset of the respective counter), the
calls admitted for that operation never lift the counter above its capacity,
so per operation at most 10 calls are admitted per fast window and at most
200 per slow window; the cross-operation total is bounded only by the sum of
the per-operation capacities. -/
theorem per_operation_rate_windows :
    (∀ (now : Rat) (op op2 : OpName) (sv : ServiceLimiters), op ≠ op2 →
        limOf (admitOp now op sv).2 op2 = limOf sv op2) ∧
    (∀ (lim : MethodLimiter) (ts : List Rat),
        (∀ t ∈ ts, 0 < PERIOD_PER_SECOND - (t - lim.fast.lastReset)) →
        (runMeth lim ts).count true + lim.fast.numCalls
          ≤ max CALLS_PER_SECOND lim.fast.numCalls) ∧
    (∀ (lim : MethodLimiter) (ts : List Rat),
        (∀ t ∈ ts, 0 < PERIOD_PER_MINUTE - (t - lim.slow.lastReset)) →
        (runMeth lim ts).count true + lim.slow.numCalls
          ≤ max CALLS_PER_MINUTE lim.slow.numCalls) :=
  ⟨fun now op op2 sv hne => admitOp_frame now op op2 sv hne,
   fun lim ts h => runMeth_fast_bound ts lim h,
   fun lim ts h => runMeth_slow_bound ts lim h⟩

/-- C1, witness: the amended theorem applied at concrete inputs: a
`get_account_info` call leaves the `get_quotes` counters untouched, and two
calls at time 0 through fresh counters admit at most the fast capacity. -/
theorem per_operation_rate_windows_witness :
    limOf (admitOp 0 OpName.acct freshService).2 OpName.quote
      = limOf freshService OpName.quote ∧
    (runMeth freshLim [0, 0]).count true + freshLim.fast.numCalls
      ≤ max CALLS_PER_SECOND freshLim.fast.numCalls :=
  ⟨per_operation_rate_windows.1 0 OpName.acct OpName.quote freshService (by decide),
   per_operation_rate_windows.2.1 freshLim [0, 0]
     (by intro t htm; rcases List.mem_cons.1 htm with h | h
         · subst h; norm_num [freshLim, PERIOD_PER_SECOND]
         · simp only [List.mem_singleton] at h; subst h
           norm_num [freshLim, PERIOD_PER_SECOND])⟩

/-- C2, code bug: a call rejected by the rate limiter does not return an
error dictionary; the `RateLimitException` raised by the `limits` decorators
wraps the method from outside, so the `except RateLimitException` handler
inside the method body never runs and the exception propagates to the caller.
Concretely, after ten admitted `get_account_info` calls at time 0 against a
ready connection, the eleventh call at time 0 raises to the caller (and makes
no remote call), instead of returning the
`Rate limit exceeded for get_account_info` dictionary that the handler at
`src/src/main.py` line 93 (and the repository test
`test_get_account_info_rate_limit_per_second`) expects. -/
theorem rate_limit_rejection_raises :
    (callGetAccountInfo 0 (acctCalls 10) connReady (RemoteOutcome.ok sampleAccount)).1
      = (Outcome.raised "too many calls", false) ∧
    ∀ raw, (Outcome.raised "too many calls" : Outcome AccountInfo)
      ≠ Outcome.returned (GResult.err
          ("Rate limit exceeded for get_account_info: " ++ raw
            ++ ". Please try again shortly.") none) := by
  constructor
  · norm_num [acctCalls, callGetAccountInfo, rateLimitedCall, methodAdmit, limAttempt,
      freshService, freshLim, CALLS_PER_SECOND, PERIOD_PER_SECOND, CALLS_PER_MINUTE,
      PERIOD_PER_MINUTE, accountBody, connReady, errMsgTruthy]
  · intro raw h
    exact Outcome.noConfusion h

/-- C3, counterexample: calls on a gateway whose construction failed do not
short-circuit before the rate limiter.  The decorators run first: a call in
the not-ready state still charges the operation's counters (the counter moves
from 0 to 1), and after ten such calls at time 0 the eleventh raises
`RateLimitException` to the caller instead of returning the stored failure
message. -/
theorem uninitialized_short_circuit_counterexample :
    (callGetAccountInfo 0 (acctCalls 10) ⟨false, some noKeysMsg⟩
        (RemoteOutcome.ok sampleAccount)).1
      = (Outcome.raised "too many calls", false) ∧
    (Outcome.raised "too many calls" : Outcome AccountInfo)
      ≠ Outcome.returned (GResult.err noKeysMsg none) ∧
    (callGetAccountInfo 0 freshService ⟨false, some noKeysMsg⟩
        (RemoteOutcome.ok sampleAccount)).2.accountL.fast.numCalls = 1 ∧
    freshService.accountL.fast.numCalls = 0 := by
  refine ⟨?_, by intro h; exact Outcome.noConfusion h, ?_, rfl⟩
  · norm_num [acctCalls, callGetAccountInfo, rateLimitedCall, methodAdmit, limAttempt,
      freshService, freshLim, CALLS_PER_SECOND, PERIOD_PER_SECOND, CALLS_PER_MINUTE,
      PERIOD_PER_MINUTE, accountBody, connReady, errMsgTruthy]
  · norm_num [callGetAccountInfo, rateLimitedCall, methodAdmit, limAttempt,
      freshService, freshLim, CALLS_PER_SECOND, PERIOD_PER_SECOND, CALLS_PER_MINUTE,
      PERIOD_PER_MINUTE]

/-- C3, amended: a failed construction probe (or absent keys) stores the
failure in the connection state with the client unset, and this state is
never mutated afterwards (the operations read it only).  Every subsequent
call to any of the four operations that the rate limiter admits returns an
error dictionary containing exactly the stored failure message and makes no
remote call; however the not-ready check runs after the decorators, so such
calls still consume rate-limit slots, and a call the limiter rejects raises
`RateLimitException` instead of returning the stored message. -/
theorem uninitialized_gateway_behavior :
    (∀ url probe, serviceInit false url probe
        = { apiReady := false, errorMessage := some noKeysMsg }) ∧
    (∀ url e, serviceInit true url (Except.error e)
        = { apiReady := false
            errorMessage := some ("Failed to connect to Alpaca API at " ++ url ++ ": " ++ e) }) ∧
    (∀ (m : String) (now : Rat) (sv : ServiceLimiters) (remote : RemoteOutcome AccountRecord),
        m ≠ "" → (methodAdmit now sv.accountL).1 = true →
        (callGetAccountInfo now sv ⟨false, some m⟩ remote).1
          = (Outcome.returned (GResult.err m none), false)) ∧
    (∀ (m : String) (now : Rat) (sv : ServiceLimiters) (symbols : List String)
        (remote : RemoteOutcome (List (String × RemoteQuote))),
        m ≠ "" → (methodAdmit now sv.quotesL).1 = true →
        (callGetQuotes now sv ⟨false, some m⟩ symbols remote).1
          = (Outcome.returned (GResult.err m none), false)) ∧
    (∀ (m : String) (now : Rat) (sv : ServiceLimiters)
        (remote : RemoteOutcome (List RemotePosition)),
        m ≠ "" → (methodAdmit now sv.positionsL).1 = true →
        (callListPositions now sv ⟨false, some m⟩ remote).1
          = (Outcome.returned (GResult.err m none), false)) ∧
    (∀ (m : String) (now : Rat) (sv : ServiceLimiters) (req : OrderRequest)
        (remote : RemoteOutcome RemoteOrder),
        m ≠ "" → (methodAdmit now sv.orderL).1 = true →
        (callSubmitTradeOrder now sv ⟨false, some m⟩ req remote).1
          = (Outcome.returned (GResult.err m none), false)) ∧
    (∀ (conn : ConnState) (now : Rat) (sv : ServiceLimiters)
        (remote : RemoteOutcome AccountRecord),
        (callGetAccountInfo now sv conn remote).2
          = { sv with accountL := (methodAdmit now sv.accountL).2 }) := by
  refine ⟨fun url probe => by simp [serviceInit], fun url e => by simp [serviceInit],
    ?_, ?_, ?_, ?_, ?_⟩
  · intro m now sv remote hm hadm
    simp [callGetAccountInfo, rateLimitedCall, hadm, accountBody, errMsgTruthy, hm]
  · intro m now sv symbols remote hm hadm
    simp [callGetQuotes, rateLimitedCall, hadm, quotesBody, errMsgTruthy, hm]
  · intro m now sv remote hm hadm
    simp [callListPositions, rateLimitedCall, hadm, positionsBody, errMsgTruthy, hm]
  · intro m now sv req remote hm hadm
    simp [callSubmitTradeOrder, rateLimitedCall, hadm, submitBody, errMsgTruthy, hm]
  · intro conn now sv remote
    cases h : (methodAdmit now sv.accountL).1 <;>
      simp [callGetAccountInfo, rateLimitedCall, h]

/-- C3, witness: on a gateway with the missing-keys failure stored, an
admitted `get_account_info` call at time 0 from fresh counters returns
exactly the stored message. -/
theorem uninitialized_gateway_behavior_witness :
    (callGetAccountInfo 0 freshService ⟨false, some noKeysMsg⟩
        (RemoteOutcome.ok sampleAccount)).1
      = (Outcome.returned (GResult.err noKeysMsg none), false) :=
  uninitialized_gateway_behavior.2.2.1 noKeysMsg 0 freshService
    (RemoteOutcome.ok sampleAccount)
    (by decide)
    (by norm_num [methodAdmit, limAttempt, freshService, freshLim,
      CALLS_PER_SECOND, PERIOD_PER_SECOND, CALLS_PER_MINUTE, PERIOD_PER_MINUTE])

/-- C4, counterexample: failure normalization does not give every gateway
operation the three-way distinction.  `get_account_info` has no
`tradeapi.rest.APIError` clause, so a remote domain error with code 403 there
is normalized by the generic handler to the `Failed to fetch account info`
message with no `raw_error`, not to the `Alpaca API error` form with the raw
text preserved. -/
theorem failure_prefix_counterexample :
    (accountBody connReady
        (RemoteOutcome.apiError "forbidden" "403" "APIError 403 forbidden")).1
      = GResult.err ("Failed to fetch account info: APIError 403 forbidden") none ∧
    (GResult.err ("Failed to fetch account info: APIError 403 forbidden") none
        : GResult AccountInfo)
      ≠ GResult.err ("Alpaca API error: forbidden (Code: 403)")
          (some "APIError 403 forbidden") := by
  exact ⟨rfl, by decide⟩

/-- C4, amended: only `submit_trade_order` distinguishes the remote domain
error and preserves the raw text: there `APIError` yields
`Alpaca API error: <message> (Code: <code>)` with `raw_error` verbatim and
any other exception from the submission yields `Failed to submit order:
<details>` with `raw_error`; in the other three operations every remote
failure other than a `RateLimitException`, domain error included, is
normalized to the generic `Failed to <operation>: <details>` message with no
`raw_error`.  The `Rate limit exceeded for <operation>` handlers fire only
for a `RateLimitException` raised inside the remote call (decorator
rejections propagate instead, see C2). -/
theorem failure_normalization_prefixes :
    (∀ raw msg code,
        (accountBody connReady (RemoteOutcome.rateLimitExc raw)).1
          = GResult.err ("Rate limit exceeded for get_account_info: " ++ raw
              ++ ". Please try again shortly.") none ∧
        (accountBody connReady (RemoteOutcome.apiError msg code raw)).1
          = GResult.err ("Failed to fetch account info: " ++ raw) none ∧
        (accountBody connReady (RemoteOutcome.otherExc raw)).1
          = GResult.err ("Failed to fetch account info: " ++ raw) none) ∧
    (∀ raw msg code (symbols : List String), symbols.isEmpty = false →
        (quotesBody connReady symbols (RemoteOutcome.rateLimitExc raw)).1
          = GResult.err ("Rate limit exceeded for get_quotes: " ++ raw
              ++ ". Please try again shortly.") none ∧
        (quotesBody connReady symbols (RemoteOutcome.apiError msg code raw)).1
          = GResult.err ("Failed to fetch quotes: " ++ raw) none ∧
        (quotesBody connReady symbols (RemoteOutcome.otherExc raw)).1
          = GResult.err ("Failed to fetch quotes: " ++ raw) none) ∧
    (∀ raw msg code,
        (positionsBody connReady (RemoteOutcome.rateLimitExc raw)).1
          = GResult.err ("Rate limit exceeded for list_positions: " ++ raw
              ++ ". Please try again shortly.") none ∧
        (positionsBody connReady (RemoteOutcome.apiError msg code raw)).1
          = GResult.err ("Failed to fetch positions: " ++ raw) none ∧
        (positionsBody connReady (RemoteOutcome.otherExc raw)).1
          = GResult.err ("Failed to fetch positions: " ++ raw) none) ∧
    (∀ raw msg code (req : OrderRequest), validateOrder req = none →
        (submitBody connReady req (RemoteOutcome.rateLimitExc raw)).1
          = GResult.err ("Rate limit exceeded for submit_trade_order: " ++ raw
              ++ ". Please try again shortly.") none ∧
        (submitBody connReady req (RemoteOutcome.apiError msg code raw)).1
          = GResult.err ("Alpaca API error: " ++ msg ++ " (Code: " ++ code ++ ")")
              (some raw) ∧
        (submitBody connReady req (RemoteOutcome.otherExc raw)).1
          = GResult.err ("Failed to submit order: " ++ raw) (some raw)) := by
  refine ⟨fun raw msg code => ⟨rfl, rfl, rfl⟩, ?_, fun raw msg code => ⟨rfl, rfl, rfl⟩, ?_⟩
  · intro raw msg code symbols hs
    refine ⟨?_, ?_, ?_⟩ <;> simp [quotesBody, connReady, errMsgTruthy, hs]
  · intro raw msg code req hv
    refine ⟨?_, ?_, ?_⟩ <;> simp [submitBody, connReady, errMsgTruthy, hv]

/-- C4, witness: the amended theorem at concrete inputs: a domain error on
order submission is normalized to the `Alpaca API error` form with the raw
text preserved, while the same domain error on a quote fetch is normalized
generically. -/
theorem failure_normalization_prefixes_witness :
    (submitBody connReady
        { symbol := "AAPL", qty := 10, side := "buy", orderType := "market"
          timeInForce := "day", limitPrice := none, stopPrice := none
          clientOrderId := none }
        (RemoteOutcome.apiError "forbidden" "403" "APIError 403 forbidden")).1
      = GResult.err ("Alpaca API error: forbidden (Code: 403)")
          (some "APIError 403 forbidden") ∧
    (quotesBody connReady ["AAPL"]
        (RemoteOutcome.apiError "forbidden" "403" "APIError 403 forbidden")).1
      = GResult.err ("Failed to fetch quotes: APIError 403 forbidden") none :=
  ⟨((failure_normalization_prefixes.2.2.2 "APIError 403 forbidden" "forbidden" "403"
      { symbol := "AAPL", qty := 10, side := "buy", orderType := "market"
        timeInForce := "day", limitPrice := none, stopPrice := none
        clientOrderId := none } (by decide)).2.1),
   ((failure_normalization_prefixes.2.1 "APIError 403 forbidden" "forbidden" "403"
      ["AAPL"] rfl).2.1)⟩

/-- C5, confirmed: `submit_trade_order` validation applies its seven rules in
source order with the first failure winning: empty symbol, non-positive
quantity, side outside buy/sell, unrecognized order type, unrecognized time
in force, missing limit price for limit and stop_limit orders, and missing
stop price for stop and stop_limit orders with trailing_stop exempt.  The
seven messages are pairwise distinct, and on any validation failure an
admitted gateway call returns exactly that message as the error dictionary
with no remote call made. -/
theorem order_validation_rules :
    (∀ r : OrderRequest, r.symbol = "" → validateOrder r = some (validationMsgs.get! 0)) ∧
    (∀ r : OrderRequest, r.symbol ≠ "" → r.qty ≤ 0 →
        validateOrder r = some (validationMsgs.get! 1)) ∧
    (∀ r : OrderRequest, r.symbol ≠ "" → 0 < r.qty →
        r.side ∉ (["buy", "sell"] : List String) →
        validateOrder r = some (validationMsgs.get! 2)) ∧
    (∀ r : OrderRequest, r.symbol ≠ "" → 0 < r.qty →
        r.side ∈ (["buy", "sell"] : List String) →
        r.orderType ∉ (["market", "limit", "stop", "stop_limit", "trailing_stop"] : List String) →
        validateOrder r = some (validationMsgs.get! 3)) ∧
    (∀ r : OrderRequest, r.symbol ≠ "" → 0 < r.qty →
        r.side ∈ (["buy", "sell"] : List String) →
        r.orderType ∈ (["market", "limit", "stop", "stop_limit", "trailing_stop"] : List String) →
        r.timeInForce ∉ (["day", "gtc", "opg", "cls", "ioc", "fok"] : List String) →
        validateOrder r = some (validationMsgs.get! 4)) ∧
    (∀ r : OrderRequest, r.symbol ≠ "" → 0 < r.qty →
        r.side ∈ (["buy", "sell"] : List String) →
        r.orderType ∈ (["limit", "stop_limit"] : List String) →
        r.timeInForce ∈ (["day", "gtc", "opg", "cls", "ioc", "fok"] : List String) →
        r.limitPrice = none →
        validateOrder r = some (validationMsgs.get! 5)) ∧
    (∀ r : OrderRequest, r.symbol ≠ "" → 0 < r.qty →
        r.side ∈ (["buy", "sell"] : List String) →
        r.orderType ∈ (["stop", "stop_limit"] : List String) →
        r.timeInForce ∈ (["day", "gtc", "opg", "cls", "ioc", "fok"] : List String) →
        (r.orderType = "stop_limit" → r.limitPrice ≠ none) →
        r.stopPrice = none →
        validateOrder r = some (validationMsgs.get! 6)) ∧
    (∀ r : OrderRequest, r.symbol ≠ "" → 0 < r.qty →
        r.side ∈ (["buy", "sell"] : List String) →
        r.orderType = "trailing_stop" →
        r.timeInForce ∈ (["day", "gtc", "opg", "cls", "ioc", "fok"] : List String) →
        validateOrder r = none) ∧
    List.Pairwise (fun a b => a ≠ b) validationMsgs ∧
    (∀ (now : Rat) (sv : ServiceLimiters) (req : OrderRequest)
        (remote : RemoteOutcome RemoteOrder) (m : String),
        validateOrder req = some m → (methodAdmit now sv.orderL).1 = true →
        (callSubmitTradeOrder now sv connReady req remote).1
          = (Outcome.returned (GResult.err m none), false)) := by
  refine ⟨?_, ?_, ?_, ?_, ?_, ?_, ?_, ?_, by decide, ?_⟩
  · intro r h; simp [validateOrder, h]
  · intro r h1 h2; simp [validateOrder, h1, h2, not_lt.mpr h2]
  · intro r h1 h2 h3
    simp only [List.mem_cons, List.mem_singleton, not_or] at h3
    simp [validateOrder, h1, not_le.mpr h2, h3.1, h3.2]
  · intro r h1 h2 h3 h4
    simp only [List.mem_cons, List.mem_singleton, not_or] at h3 h4
    rcases h3 with h3 | h3 <;> simp_all [validateOrder, h1, not_le.mpr h2]
  · intro r h1 h2 h3 h4 h5
    simp only [List.mem_cons, List.mem_singleton, not_or] at h3 h4 h5
    rcases h3 with h3 | h3 <;> rcases h4 with h4 | h4 | h4 | h4 | h4 <;>
      simp_all [validateOrder, h1, not_le.mpr h2]
  · intro r h1 h2 h3 h4 h5 h6
    simp only [List.mem_cons, List.mem_singleton] at h3 h4 h5
    rcases h3 with h3 | h3 <;> rcases h4 with h4 | h4 <;>
      rcases h5 with h5 | h5 | h5 | h5 | h5 | h5 <;>
      simp_all [validateOrder, h1, not_le.mpr h2]
  · intro r h1 h2 h3 h4 h5 h6 h7
    simp only [List.mem_cons, List.mem_singleton] at h3 h4 h5
    rcases h3 with h3 | h3 <;> rcases h4 with h4 | h4 <;>
      rcases h5 with h5 | h5 | h5 | h5 | h5 | h5 <;>
      simp_all [validateOrder, h1, not_le.mpr h2, Option.isNone_iff_eq_none]
  · intro r h1 h2 h3 h4 h5
    simp only [List.mem_cons, List.mem_singleton] at h3 h5
    rcases h3 with h3 | h3 <;>
      rcases h5 with h5 | h5 | h5 | h5 | h5 | h5 <;>
      simp_all [validateOrder, h1, not_le.mpr h2]
  · intro now sv req remote m hv hadm
    simp [callSubmitTradeOrder, rateLimitedCall, hadm, submitBody, connReady,
      errMsgTruthy, hv]

/-- C5, witness: a limit order without a limit price fails rule six, and an
admitted gateway call at time 0 surfaces exactly that message with no remote
call. -/
theorem order_validation_rules_witness :
    validateOrder
        { symbol := "AAPL", qty := 10, side := "buy", orderType := "limit"
          timeInForce := "day", limitPrice := none, stopPrice := none
          clientOrderId := none }
      = some "Limit price is required for limit and stop_limit orders." ∧
    (callSubmitTradeOrder 0 freshService connReady
        { symbol := "AAPL", qty := 10, side := "buy", orderType := "limit"
          timeInForce := "day", limitPrice := none, stopPrice := none
          clientOrderId := none }
        (RemoteOutcome.ok
          { id := "1", clientOrderId := "c", symbol := "AAPL", qty := 10
            side := "buy", orderType := "limit", timeInForce := "day"
            status := "accepted", createdAt := none, limitPrice := none
            stopPrice := none })).1
      = (Outcome.returned (GResult.err
          "Limit price is required for limit and stop_limit orders." none), false) :=
  ⟨order_validation_rules.2.2.2.2.2.1
      { symbol := "AAPL", qty := 10, side := "buy", orderType := "limit"
        timeInForce := "day", limitPrice := none, stopPrice := none
        clientOrderId := none }
      (by decide) (by norm_num) (by decide) (by decide) (by decide) rfl,
   order_validation_rules.2.2.2.2.2.2.2.2.2 0 freshService
      { symbol := "AAPL", qty := 10, side := "buy", orderType := "limit"
        timeInForce := "day", limitPrice := none, stopPrice := none
        clientOrderId := none }
      (RemoteOutcome.ok
        { id := "1", clientOrderId := "c", symbol := "AAPL", qty := 10
          side := "buy", orderType := "limit", timeInForce := "day"
          status := "accepted", createdAt := none, limitPrice := none
          stopPrice := none })
      "Limit price is required for limit and stop_limit orders."
      (by decide)
      (by norm_num [methodAdmit, limAttempt, freshService, freshLim,
        CALLS_PER_SECOND, PERIOD_PER_SECOND, CALLS_PER_MINUTE, PERIOD_PER_MINUTE])⟩

/-- C6, counterexample: `get_quotes` with an empty symbol list does consume a
slot in each of its two rate-limit windows, because the decorators run before
the empty-symbols shortcut inside the body: from fresh counters the call
returns the empty successful result with no remote call, yet the fast counter
of the quotes method moves from 0 to 1. -/
theorem empty_quotes_limiter_counterexample :
    (callGetQuotes 0 freshService connReady [] (RemoteOutcome.ok [])).1
      = (Outcome.returned (GResult.ok []), false) ∧
    (callGetQuotes 0 freshService connReady []
        (RemoteOutcome.ok [])).2.quotesL.fast.numCalls = 1 ∧
    freshService.quotesL.fast.numCalls = 0 := by
  refine ⟨?_, ?_, rfl⟩ <;>
    norm_num [callGetQuotes, rateLimitedCall, methodAdmit, limAttempt, freshService,
      freshLim, CALLS_PER_SECOND, PERIOD_PER_SECOND, CALLS_PER_MINUTE, PERIOD_PER_MINUTE,
      quotesBody, connReady, errMsgTruthy]

/-- C6, amended: on a ready gateway, an admitted `get_quotes` call with an
empty symbol list returns the empty successful result and makes no remote
call; but the call passes through the rate limiter first, so it consumes a
slot in each of the quotes windows (the quotes decorator pair advances by the
admission step) and can itself be rejected by the limiter. -/
theorem empty_quotes_shortcut :
    (∀ (now : Rat) (sv : ServiceLimiters)
        (remote : RemoteOutcome (List (String × RemoteQuote))),
        (methodAdmit now sv.quotesL).1 = true →
        (callGetQuotes now sv connReady [] remote).1
          = (Outcome.returned (GResult.ok []), false)) ∧
    (∀ (now : Rat) (sv : ServiceLimiters) (conn : ConnState)
        (remote : RemoteOutcome (List (String × RemoteQuote))),
        (callGetQuotes now sv conn [] remote).2
          = { sv with quotesL := (methodAdmit now sv.quotesL).2 }) := by
  constructor
  · intro now sv remote hadm
    simp [callGetQuotes, rateLimitedCall, hadm, quotesBody, connReady, errMsgTruthy]
  · intro now sv conn remote
    cases h : (methodAdmit now sv.quotesL).1 <;>
      simp [callGetQuotes, rateLimitedCall, h]

/-- C6, witness: the amended theorem at time 0 from fresh counters. -/
theorem empty_quotes_shortcut_witness :
    (callGetQuotes 0 freshService connReady [] (RemoteOutcome.ok [])).1
      = (Outcome.returned (GResult.ok []), false) :=
  empty_quotes_shortcut.1 0 freshService (RemoteOutcome.ok [])
    (by norm_num [methodAdmit, limAttempt, freshService, freshLim,
      CALLS_PER_SECOND, PERIOD_PER_SECOND, CALLS_PER_MINUTE, PERIOD_PER_MINUTE])

/-- Helper: the processed quote dictionary has exactly the keys of the remote
response, in order. -/
theorem processQuotes_keys (qd : List (String × RemoteQuote)) :
    (processQuotes qd).map Prod.fst = qd.map Prod.fst := by
  induction qd with
  | nil => rfl
  | cons p ps ih => simp [processQuotes]

/-- C7, confirmed: a successful `get_quotes` call returns the normalization
of exactly the symbol/quote pairs present in the remote response: the loop
iterates only over the remote items, the result keys are exactly the remote
keys, and any requested symbol absent from the remote response is absent from
the result (silently omitted, not an error). -/
theorem quotes_exact_response_symbols (now : Rat) (sv : ServiceLimiters)
    (symbols : List String) (qd : List (String × RemoteQuote))
    (hs : symbols.isEmpty = false)
    (hadm : (methodAdmit now sv.quotesL).1 = true) :
    (callGetQuotes now sv connReady symbols (RemoteOutcome.ok qd)).1
      = (Outcome.returned (GResult.ok (processQuotes qd)), true) ∧
    (processQuotes qd).map Prod.fst = qd.map Prod.fst ∧
    ∀ s, s ∈ symbols → s ∉ qd.map Prod.fst → s ∉ (processQuotes qd).map Prod.fst := by
  refine ⟨?_, processQuotes_keys qd, ?_⟩
  · simp [callGetQuotes, rateLimitedCall, hadm, quotesBody, connReady, errMsgTruthy, hs]
  · intro s hreq habs
    rw [processQuotes_keys qd]
    exact habs

/-- C7, witness: a request for GOOD and BAD where the remote returns only
GOOD yields exactly GOOD; BAD is absent from the result. -/
theorem quotes_exact_response_symbols_witness :
    (callGetQuotes 0 freshService connReady ["GOOD", "BAD"]
        (RemoteOutcome.ok [("GOOD", ⟨100, 99.9, 5, 7, some "2023-10-26T11:00:00Z"⟩)])).1
      = (Outcome.returned (GResult.ok
          [("GOOD", ⟨100, 99.9, 5, 7, some "2023-10-26T11:00:00Z"⟩)]), true) ∧
    "BAD" ∉ (processQuotes
        [("GOOD", ⟨100, 99.9, 5, 7, some "2023-10-26T11:00:00Z"⟩)]).map Prod.fst := by
  have h := quotes_exact_response_symbols 0 freshService ["GOOD", "BAD"]
    [("GOOD", ⟨100, 99.9, 5, 7, some "2023-10-26T11:00:00Z"⟩)] rfl
    (by norm_num [methodAdmit, limAttempt, freshService, freshLim,
      CALLS_PER_SECOND, PERIOD_PER_SECOND, CALLS_PER_MINUTE, PERIOD_PER_MINUTE])
  refine ⟨?_, h.2.2 "BAD" (by simp) (by simp)⟩
  rw [h.1]
  rfl

/-- C8, confirmed: a successful `list_positions` call returns exactly the
per-record enrichment of the remote position list: each output entry is a
function of the corresponding remote record alone (no per-symbol quote fetch
exists in the operation), the current price is the one embedded in the remote
record (a falsy embedded price becoming `None`), and the unrealized P/L
percentage is the remote fraction times 100. -/
theorem positions_derived_from_remote (now : Rat) (sv : ServiceLimiters)
    (ps : List RemotePosition)
    (hadm : (methodAdmit now sv.positionsL).1 = true) :
    (callListPositions now sv connReady (RemoteOutcome.ok ps)).1
      = (Outcome.returned (GResult.ok (ps.map enrichPosition)), true) ∧
    (∀ i : Nat, (ps.map enrichPosition)[i]? = Option.map enrichPosition ps[i]?) ∧
    (∀ p : RemotePosition,
        (enrichPosition p).unrealizedPlpc = p.unrealizedPlpc * 100 ∧
        (enrichPosition p).currentPrice
          = (if ratTruthy p.currentPrice then p.currentPrice else none) ∧
        (enrichPosition p).symbol = p.symbol ∧
        (enrichPosition p).qty = p.qty ∧
        (enrichPosition p).avgEntryPrice = p.avgEntryPrice ∧
        (enrichPosition p).marketValue = p.marketValue ∧
        (enrichPosition p).unrealizedPl = p.unrealizedPl ∧
        (enrichPosition p).assetClass = p.assetClass ∧
        (enrichPosition p).exchange = p.exchange) := by
  refine ⟨?_, fun i => (List.getElem?_map enrichPosition ps i).symm ▸ rfl, ?_⟩
  · cases ps <;>
      simp [callListPositions, rateLimitedCall, hadm, positionsBody, connReady, errMsgTruthy]
  · intro p
    refine ⟨rfl, ?_, rfl, rfl, rfl, rfl, rfl, rfl, rfl⟩
    cases hp : p.currentPrice with
    | none => simp [enrichPosition, ratTruthy, hp]
    | some x => by_cases hx : x = 0 <;> simp [enrichPosition, ratTruthy, hp, hx]

/-- C8, witness: the theorem at a concrete position list: a remote fraction
of 0.05 is reported as 5 percent, and the embedded price is carried over. -/
theorem positions_derived_from_remote_witness :
    (callListPositions 0 freshService connReady
        (RemoteOutcome.ok
          [{ symbol := "AAPL", qty := 10, avgEntryPrice := 150
             currentPrice := some 160, marketValue := 1600, unrealizedPl := 100
             unrealizedPlpc := 0.05, assetClass := "us_equity", exchange := "NASDAQ" }])).1
      = (Outcome.returned (GResult.ok
          [{ symbol := "AAPL", qty := 10, avgEntryPrice := 150
             currentPrice := some 160, marketValue := 1600, unrealizedPl := 100
             unrealizedPlpc := 5, assetClass := "us_equity", exchange := "NASDAQ" }]), true) := by
  have h := positions_derived_from_remote 0 freshService
    [{ symbol := "AAPL", qty := 10, avgEntryPrice := 150
       currentPrice := some 160, marketValue := 1600, unrealizedPl := 100
       unrealizedPlpc := 0.05, assetClass := "us_equity", exchange := "NASDAQ" }]
    (by norm_num [methodAdmit, limAttempt, freshService, freshLim,
      CALLS_PER_SECOND, PERIOD_PER_SECOND, CALLS_PER_MINUTE, PERIOD_PER_MINUTE])
  rw [h.1]
  norm_num [enrichPosition, ratTruthy]

/-- C9, confirmed: `get_account_info` is deterministic in the remote record:
two admitted calls against the same remote account record yield the same
successful result, namely the normalization of that record with its formatted
currency strings. -/
theorem account_info_deterministic (now1 now2 : Rat) (sv : ServiceLimiters)
    (a : AccountRecord)
    (h1 : (methodAdmit now1 sv.accountL).1 = true)
    (h2 : (methodAdmit now2
        ((callGetAccountInfo now1 sv connReady (RemoteOutcome.ok a)).2).accountL).1
      = true) :
    (callGetAccountInfo now2 (callGetAccountInfo now1 sv connReady (RemoteOutcome.ok a)).2
        connReady (RemoteOutcome.ok a)).1
      = (callGetAccountInfo now1 sv connReady (RemoteOutcome.ok a)).1 ∧
    (callGetAccountInfo now1 sv connReady (RemoteOutcome.ok a)).1
      = (Outcome.returned (GResult.ok (normalizeAccount a)), true) := by
  have h2a : (methodAdmit now2 (methodAdmit now1 sv.accountL).2).1 = true := by
    rw [callGetAccountInfo_state] at h2; exact h2
  constructor <;>
    simp [callGetAccountInfo, rateLimitedCall, callGetAccountInfo_state, h1, h2a,
      accountBody, connReady, errMsgTruthy]

/-- C9, witness: two calls at time 0 from fresh counters against the sample
record agree and both return its normalization. -/
theorem account_info_deterministic_witness :
    (callGetAccountInfo 0
        (callGetAccountInfo 0 freshService connReady (RemoteOutcome.ok sampleAccount)).2
        connReady (RemoteOutcome.ok sampleAccount)).1
      = (callGetAccountInfo 0 freshService connReady (RemoteOutcome.ok sampleAccount)).1 :=
  (account_info_deterministic 0 0 freshService sampleAccount
    (by norm_num [methodAdmit, limAttempt, freshService, freshLim,
      CALLS_PER_SECOND, PERIOD_PER_SECOND, CALLS_PER_MINUTE, PERIOD_PER_MINUTE])
    (by norm_num [callGetAccountInfo, rateLimitedCall, methodAdmit, limAttempt,
      freshService, freshLim, CALLS_PER_SECOND, PERIOD_PER_SECOND, CALLS_PER_MINUTE,
      PERIOD_PER_MINUTE, accountBody, connReady, errMsgTruthy])).1

/-- C10, confirmed: in the result of a successful order submission, the limit
and stop prices are `None` whenever the remote value is falsy, so a remote
price of exactly 0 is reported as `None` rather than 0.0, and a missing
creation timestamp stays `None`. -/
theorem falsy_order_fields_none (o : RemoteOrder) :
    (ratTruthy o.limitPrice = false → (normalizeOrder o).limitPrice = none) ∧
    (ratTruthy o.stopPrice = false → (normalizeOrder o).stopPrice = none) ∧
    (o.limitPrice = some 0 → (normalizeOrder o).limitPrice = none) ∧
    (o.stopPrice = some 0 → (normalizeOrder o).stopPrice = none) ∧
    (o.createdAt = none → (normalizeOrder o).createdAt = none) := by
  refine ⟨fun h => by simp [normalizeOrder, h], fun h => by simp [normalizeOrder, h],
    fun h => by simp [normalizeOrder, ratTruthy, h],
    fun h => by simp [normalizeOrder, ratTruthy, h],
    fun h => by simp [normalizeOrder, h]⟩

/-- C10, witness: a remote order carrying a limit price and a stop price of
exactly 0 and no creation timestamp is reported with all three fields
`None`. -/
theorem falsy_order_fields_none_witness :
    (normalizeOrder
        { id := "1", clientOrderId := "c", symbol := "AAPL", qty := 10
          side := "buy", orderType := "stop_limit", timeInForce := "day"
          status := "accepted", createdAt := none, limitPrice := some 0
          stopPrice := some 0 }).limitPrice = none ∧
    (normalizeOrder
        { id := "1", clientOrderId := "c", symbol := "AAPL", qty := 10
          side := "buy", orderType := "stop_limit", timeInForce := "day"
          status := "accepted", createdAt := none, limitPrice := some 0
          stopPrice := some 0 }).stopPrice = none ∧
    (normalizeOrder
        { id := "1", clientOrderId := "c", symbol := "AAPL", qty := 10
          side := "buy", orderType := "stop_limit", timeInForce := "day"
          status := "accepted", createdAt := none, limitPrice := some 0
          stopPrice := some 0 }).createdAt = none :=
  ⟨(falsy_order_fields_none _).2.2.1 rfl,
   (falsy_order_fields_none _).2.2.2.1 rfl,
   (falsy_order_fields_none _).2.2.2.2 rfl⟩

end PyTrader
